import Mathlib

/-
Verification of the Govee BLE packet-codec core (src/ble_working_old.rs):
the frame/checksum primitive, the fixed-layout packet codecs with their
SKU-aware registry, and the scene segmentation encoder.

Modelling conventions:
* a Rust `u8` byte is a `Nat` (wrapping arithmetic written with an explicit
  `% 256` where the source can overflow);
* `Vec<u8>` / `&[u8]` is `List Nat`;
* the catalog's hex-string fields (Rust `String`) are `List Char`, and
  `str::starts_with` is `List.isPrefixOf`;
* fallible operations (`anyhow::Result`) return `Option`;
* the base64 decoding of the scene blob (`data_encoding::BASE64.decode`)
  is modelled as already performed: `SetSceneCode.scence_param` holds the
  decoded bytes, which is what every property here quantifies over;
* the remote parameter catalog (`MODEL_SPECIFIC_PARAMS`, fetched over the
  network at process start) is passed explicitly as a `List` argument.
-/

/-! ### Frame codec: `calculate_checksum` and `finish` (source lines 474-486) -/

/-- `calculate_checksum`: XOR-fold of the first 19 bytes. -/
def calculate_checksum (data : List Nat) : Nat :=
  (data.take 19).foldl (fun acc x => acc ^^^ x) 0

/-- `data_to_checksum.resize(19, 0)`: truncate to 19 bytes or pad with zeros
up to 19 bytes. -/
def resize19 (data : List Nat) : List Nat :=
  data.take 19 ++ List.replicate (19 - data.length) 0

/-- `finish`: resize the payload to 19 bytes and append the XOR checksum. -/
def finish (data : List Nat) : List Nat :=
  resize19 data ++ [calculate_checksum (resize19 data)]

/-- The decode side of the `packet!` macro starts with
`&data[0..data.len().saturating_sub(1)]`: drop the trailing checksum byte. -/
def dropChecksum (data : List Nat) : List Nat :=
  data.take (data.length - 1)

/-! ### Field codecs (`DecodePacketParam` impls) and `packet!` decode steps -/

/-- `btoi` (source line 497). -/
def btoi (b : Bool) : Nat := if b then 1 else 0

/-- `itob` (source line 498). -/
def itob (i : Nat) : Bool := i != 0

/-- `u8::decode_param`: read one byte, EOF error on empty input. -/
def decode_u8 : List Nat → Option (Nat × List Nat)
  | [] => none
  | b :: rest => some (b, rest)

/-- `u8::encode_param`: push the byte. -/
def encode_u8 (b : Nat) : List Nat := [b]

/-- `bool::decode_param`: read one byte and map it through `itob`. -/
def decode_bool (data : List Nat) : Option (Bool × List Nat) :=
  (decode_u8 data).map (fun p => (itob p.1, p.2))

/-- `bool::encode_param`: push `btoi`. -/
def encode_bool (b : Bool) : List Nat := [btoi b]

/-- A literal byte in the `packet!` layout: `ensure!(data.get(0) == Some(&expected))`
then advance. -/
def decode_lit (expected : Nat) : List Nat → Option (List Nat)
  | [] => none
  | b :: rest => if b = expected then some rest else none

/-- The empty tail of `decode_body!`: every remaining byte must be zero. -/
def decode_zero_tail (data : List Nat) : Option Unit :=
  if data.all (fun b => b == 0) then some () else none

/-! ### Typed command structs (source lines 281-314, 424-438) -/

structure SetHumidifierNightlightParams where
  -- source field `on` (renamed: `on` is a reserved token in Lean)
  on_ : Bool
  r : Nat
  g : Nat
  b : Nat
  brightness : Nat
deriving DecidableEq

structure NotifyHumidifierNightlightParams where
  -- source field `on` (renamed: `on` is a reserved token in Lean)
  on_ : Bool
  r : Nat
  g : Nat
  b : Nat
  brightness : Nat
deriving DecidableEq

/-- `TargetHumidity(u8)`. -/
structure TargetHumidity where
  val : Nat
deriving DecidableEq

/-- `TargetHumidity::as_percent`: masked read of the low 7 bits (`self.0 & 0x7f`). -/
def TargetHumidity.as_percent (t : TargetHumidity) : Nat := t.val &&& 0x7f

/-- `TargetHumidity::into_inner`. -/
def TargetHumidity.into_inner (t : TargetHumidity) : Nat := t.val

/-- `TargetHumidity::from_percent`: `Self(percent + 128)` in `u8` arithmetic. -/
def TargetHumidity.from_percent (percent : Nat) : TargetHumidity :=
  ⟨(percent + 128) % 256⟩

structure SetHumidifierMode where
  mode : Nat
  param : Nat
deriving DecidableEq

structure NotifyHumidifierMode where
  mode : Nat
  param : Nat
deriving DecidableEq

structure HumidifierAutoMode where
  target_humidity : TargetHumidity
deriving DecidableEq

/-- `SetSceneCode` with `scence_param` holding the base64-decoded blob bytes. -/
structure SetSceneCode where
  code : Nat
  scence_param : List Nat
  sku : String
deriving DecidableEq

structure SetDevicePower where
  -- source field `on` (renamed: `on` is a reserved token in Lean)
  on_ : Bool
deriving DecidableEq

/-- `GoveeBlePacket`; `Generic` carries the raw bytes (`HexBytes`) verbatim. -/
inductive GoveeBlePacket where
  | Generic (bytes : List Nat)
  | SetSceneCode (v : SetSceneCode)
  | SetDevicePower (v : SetDevicePower)
  | SetHumidifierNightlight (v : SetHumidifierNightlightParams)
  | NotifyHumidifierMode (v : NotifyHumidifierMode)
  | SetHumidifierMode (v : SetHumidifierMode)
  | NotifyHumidifierAutoMode (v : HumidifierAutoMode)
  | NotifyHumidifierNightlight (v : NotifyHumidifierNightlightParams)
deriving DecidableEq

/-! ### The six `packet!` codecs (source lines 232-244)

Each encoder pushes the layout bytes and calls `finish`; each decoder drops
the trailing checksum byte, consumes the layout, and requires an all-zero
tail. -/

/-- `packet!(&["H7160"], SetHumidifierMode, SetHumidifierMode, 0x33,0x05,mode,param,)` encode. -/
def SetHumidifierMode.encode (v : SetHumidifierMode) : List Nat :=
  finish ([0x33] ++ [0x05] ++ encode_u8 v.mode ++ encode_u8 v.param)

def SetHumidifierMode.decode (data : List Nat) : Option GoveeBlePacket := do
  let d ← decode_lit 0x33 (dropChecksum data)
  let d ← decode_lit 0x05 d
  let (mode, d) ← decode_u8 d
  let (param, d) ← decode_u8 d
  let _ ← decode_zero_tail d
  pure (GoveeBlePacket.SetHumidifierMode { mode := mode, param := param })

/-- `packet!(&["H7160"], NotifyHumidifierMode, NotifyHumidifierMode, 0xaa,0x05,0x00,mode,param,)` encode. -/
def NotifyHumidifierMode.encode (v : NotifyHumidifierMode) : List Nat :=
  finish ([0xaa] ++ [0x05] ++ [0x00] ++ encode_u8 v.mode ++ encode_u8 v.param)

def NotifyHumidifierMode.decode (data : List Nat) : Option GoveeBlePacket := do
  let d ← decode_lit 0xaa (dropChecksum data)
  let d ← decode_lit 0x05 d
  let d ← decode_lit 0x00 d
  let (mode, d) ← decode_u8 d
  let (param, d) ← decode_u8 d
  let _ ← decode_zero_tail d
  pure (GoveeBlePacket.NotifyHumidifierMode { mode := mode, param := param })

/-- `TargetHumidity::encode_param` pushes the raw inner byte. -/
def TargetHumidity.encode_param (t : TargetHumidity) : List Nat := [t.val]

/-- `packet!(&["H7160"], HumidifierAutoMode, NotifyHumidifierAutoMode, 0xaa,0x05,0x03,target_humidity,)` encode. -/
def HumidifierAutoMode.encode (v : HumidifierAutoMode) : List Nat :=
  finish ([0xaa] ++ [0x05] ++ [0x03] ++ v.target_humidity.encode_param)

def HumidifierAutoMode.decode (data : List Nat) : Option GoveeBlePacket := do
  let d ← decode_lit 0xaa (dropChecksum data)
  let d ← decode_lit 0x05 d
  let d ← decode_lit 0x03 d
  let (t, d) ← decode_u8 d
  let _ ← decode_zero_tail d
  pure (GoveeBlePacket.NotifyHumidifierAutoMode { target_humidity := ⟨t⟩ })

/-- `packet!(&["H7160"], NotifyHumidifierNightlightParams, NotifyHumidifierNightlight, 0xaa,0x1b,on,brightness,r,g,b,)` encode. -/
def NotifyHumidifierNightlightParams.encode (v : NotifyHumidifierNightlightParams) : List Nat :=
  finish ([0xaa] ++ [0x1b] ++ encode_bool v.on_ ++ encode_u8 v.brightness ++
    encode_u8 v.r ++ encode_u8 v.g ++ encode_u8 v.b)

def NotifyHumidifierNightlightParams.decode (data : List Nat) : Option GoveeBlePacket := do
  let d ← decode_lit 0xaa (dropChecksum data)
  let d ← decode_lit 0x1b d
  let (on_, d) ← decode_bool d
  let (brightness, d) ← decode_u8 d
  let (r, d) ← decode_u8 d
  let (g, d) ← decode_u8 d
  let (b, d) ← decode_u8 d
  let _ ← decode_zero_tail d
  pure (GoveeBlePacket.NotifyHumidifierNightlight
    { on_ := on_, r := r, g := g, b := b, brightness := brightness })

/-- `packet!(&["H7160"], SetHumidifierNightlightParams, SetHumidifierNightlight, 0x33,0x1b,on,brightness,r,g,b,)` encode. -/
def SetHumidifierNightlightParams.encode (v : SetHumidifierNightlightParams) : List Nat :=
  finish ([0x33] ++ [0x1b] ++ encode_bool v.on_ ++ encode_u8 v.brightness ++
    encode_u8 v.r ++ encode_u8 v.g ++ encode_u8 v.b)

def SetHumidifierNightlightParams.decode (data : List Nat) : Option GoveeBlePacket := do
  let d ← decode_lit 0x33 (dropChecksum data)
  let d ← decode_lit 0x1b d
  let (on_, d) ← decode_bool d
  let (brightness, d) ← decode_u8 d
  let (r, d) ← decode_u8 d
  let (g, d) ← decode_u8 d
  let (b, d) ← decode_u8 d
  let _ ← decode_zero_tail d
  pure (GoveeBlePacket.SetHumidifierNightlight
    { on_ := on_, r := r, g := g, b := b, brightness := brightness })

/-- `packet!(&["Generic:Light","*"], SetDevicePower, SetDevicePower, 0x33,0x01,on,)` encode. -/
def SetDevicePower.encode (v : SetDevicePower) : List Nat :=
  finish ([0x33] ++ [0x01] ++ encode_bool v.on_)

def SetDevicePower.decode (data : List Nat) : Option GoveeBlePacket := do
  let d ← decode_lit 0x33 (dropChecksum data)
  let d ← decode_lit 0x01 d
  let (on_, d) ← decode_bool d
  let _ ← decode_zero_tail d
  pure (GoveeBlePacket.SetDevicePower { on_ := on_ })

/-- `SetSceneCode::decode` unconditionally fails (source line 419-421). -/
def SetSceneCode.decode (_data : List Nat) : Option GoveeBlePacket := none

/-! ### Parameter catalog (`model_specific_parameters.json`, source lines 12-77) -/

/-- `TypeEntry` (source lines 13-19); hex-string fields are `List Char`. -/
structure TypeEntry where
  type_entry : Nat
  hex_prefix_remove : List Char
  hex_prefix_add : List Char
  normal_command_suffix : List Char
deriving DecidableEq

/-- `TypeEntry::default` (source lines 21-30): all fields empty. -/
instance : Inhabited TypeEntry := ⟨⟨0, [], [], []⟩⟩

/-- `ModelSpecificParameter` (source lines 32-39).
The field `hex_multi_prefix` is modelled as `hex_multi_prefix_str`. -/
structure ModelSpecificParameter where
  models : List String
  hex_multi_prefix_str : List Char
  on_command : Bool
  type_entries : List TypeEntry
deriving DecidableEq

/-- `find_params_for_sku` (source lines 65-77): exact SKU match first, then the
entry whose models list contains the literal string null. -/
def find_params_for_sku (catalog : List ModelSpecificParameter)
    (sku : String) : Option ModelSpecificParameter :=
  match catalog.find? (fun p => p.models.contains sku) with
  | some p => some p
  | none => catalog.find? (fun p => p.models.contains ("null"))

/-! ### Hex helpers (source lines 81-92): the `hex` crate's encode/decode -/

/-- One lowercase hex digit, as produced by `hex::encode`. -/
def hexDigitChar (n : Nat) : Char :=
  if n < 10 then Char.ofNat (48 + n) else Char.ofNat (87 + n)

/-- `bytes_to_hex_string` = `hex::encode`: two lowercase digits per byte. -/
def bytes_to_hex_string (bytes : List Nat) : List Char :=
  bytes.flatMap (fun b => [hexDigitChar (b / 16), hexDigitChar (b % 16)])

/-- The value of one hex digit as accepted by `hex::decode` (both cases). -/
def hexDigitVal (c : Char) : Option Nat :=
  if 48 ≤ c.toNat ∧ c.toNat ≤ 57 then some (c.toNat - 48)
  else if 97 ≤ c.toNat ∧ c.toNat ≤ 102 then some (c.toNat - 87)
  else if 65 ≤ c.toNat ∧ c.toNat ≤ 70 then some (c.toNat - 55)
  else none

/-- `hex::decode` body: consume digit pairs; odd length or a bad digit fails. -/
def hexPairsToBytes : List Char → Option (List Nat)
  | [] => some []
  | [_] => none
  | c1 :: c2 :: rest => do
    let hi ← hexDigitVal c1
    let lo ← hexDigitVal c2
    let tail ← hexPairsToBytes rest
    pure ((16 * hi + lo) :: tail)

/-- `hex_string_to_bytes` (source lines 81-86): empty string short-circuits. -/
def hex_string_to_bytes (s : List Char) : Option (List Nat) :=
  if s.isEmpty then some [] else hexPairsToBytes s

/-- `u8::from_str_radix(s, 16)`: optional leading plus sign, at least one hex
digit, value below 256. -/
def parse_u8_radix16 (s : List Char) : Option Nat :=
  let digits := match s with
    | '+' :: rest => rest
    | _ => s
  if digits.isEmpty then none
  else do
    let n ← digits.foldlM (fun acc c => (hexDigitVal c).map (fun d => 16 * acc + d)) 0
    if n < 256 then some n else none

/-! ### Scene segmentation encoder (`SetSceneCode::encode`, source lines 321-417) -/

/-- Type-Entry selection (source lines 327-334): first entry whose nonempty
`hex_prefix_remove` is a string-prefix of the hex encoding of the raw bytes;
else the first entry with an empty `hex_prefix_remove`; else the default. -/
def scene_matched_type_entry (params : ModelSpecificParameter)
    (raw : List Nat) : TypeEntry :=
  let raw_scence_hex_str := bytes_to_hex_string raw
  match params.type_entries.find? (fun te =>
      !(te.hex_prefix_remove.isEmpty) &&
        te.hex_prefix_remove.isPrefixOf raw_scence_hex_str) with
  | some te => te
  | none =>
    match params.type_entries.find? (fun te => te.hex_prefix_remove.isEmpty) with
    | some te => te
    | none => default

/-- Prefix stripping (source lines 336-341). -/
def scene_stripped_bytes (te : TypeEntry) (raw : List Nat) : Option (List Nat) :=
  if !(te.hex_prefix_remove.isEmpty) then do
    let remove_bytes ← hex_string_to_bytes te.hex_prefix_remove
    if remove_bytes.isPrefixOf raw then pure (raw.drop remove_bytes.length)
    else pure raw
  else pure raw

/-- The segmentation payload (source lines 343-345): `hex_prefix_add` bytes
followed by the (possibly stripped) raw bytes. -/
def scene_data_for_segmentation (params : ModelSpecificParameter)
    (raw : List Nat) : Option (List Nat) := do
  let te := scene_matched_type_entry params raw
  let stripped ← scene_stripped_bytes te raw
  let add_bytes ← hex_string_to_bytes te.hex_prefix_add
  pure (add_bytes ++ stripped)

/-- `num_lines_byte` (source lines 349-359): the temp payload is
`[0x01, 0x00] ++ data`; the count is `((len + 16) / 17).max(1) as u8`. -/
def scene_num_lines_byte (data_for_seg : List Nat) : Nat :=
  let temp := 0x01 :: 0x00 :: data_for_seg
  if temp.isEmpty then 1
  else (max ((temp.length + 16) / 17) 1) % 256

/-- `full_payload_for_segmentation` (source lines 362-363). -/
def scene_full_payload (data_for_seg : List Nat) : List Nat :=
  0x01 :: scene_num_lines_byte data_for_seg :: data_for_seg

/-- The segmentation loop (source lines 369-395), one recursion step per
iteration of `for i in 0..num_lines_byte`; `remaining` counts the iterations
still to run. The source's early `break` fires when the cursor is already at
the end of the payload and `i > 0`. -/
def seg_loop (marker num_lines : Nat) (payload : List Nat) :
    Nat → Nat → Nat → List (List Nat)
  | _, _, 0 => []
  | i, cursor, r + 1 =>
    if cursor ≥ payload.length ∧ i > 0 then []
    else
      let line_index_byte :=
        if num_lines = 1 then 0xff
        else if i = num_lines - 1 then 0xff
        else i
      let chunk_end := min (cursor + 17) payload.length
      let line := marker :: line_index_byte ::
        ((payload.drop cursor).take (chunk_end - cursor))
      line :: seg_loop marker num_lines payload (i + 1) chunk_end r

/-- All segmentation lines of one scene encoding. -/
def scene_lines (marker : Nat) (data_for_seg : List Nat) : List (List Nat) :=
  seg_loop marker (scene_num_lines_byte data_for_seg)
    (scene_full_payload data_for_seg) 0 0 (scene_num_lines_byte data_for_seg)

/-- `u16::to_le_bytes`: low byte first. -/
def u16_to_le_bytes (code : Nat) : List Nat := [code % 256, code / 256 % 256]

/-- The mode-selection line (source lines 397-402): literals `33 05 04`, the
scene code little-endian, then the `normal_command_suffix` bytes if any. -/
def scene_mode_cmd_payload (te : TypeEntry) (code : Nat) : Option (List Nat) :=
  let base := [0x33, 0x05, 0x04] ++ u16_to_le_bytes code
  if (te.normal_command_suffix).isEmpty then some base
  else do
    let suffix_bytes ← hex_string_to_bytes te.normal_command_suffix
    pure (base ++ suffix_bytes)

/-- `all_command_lines_data` (source lines 365-402): the segmentation lines
followed by the mode-selection line. -/
def scene_command_lines (params : ModelSpecificParameter) (raw : List Nat)
    (code : Nat) : Option (List (List Nat)) := do
  let data ← scene_data_for_segmentation params raw
  let marker ← parse_u8_radix16 params.hex_multi_prefix_str
  let mode_cmd ← scene_mode_cmd_payload (scene_matched_type_entry params raw) code
  pure (scene_lines marker data ++ [mode_cmd])

/-- `SetSceneCode::encode` (source lines 321-417): frame every line, prepend
the framed power-on line `[0x33, 0x01, 0x01]` when `on_command` is set. -/
def SetSceneCode.encode (catalog : List ModelSpecificParameter)
    (self : SetSceneCode) : Option (List Nat) :=
  match find_params_for_sku catalog self.sku with
  | none => none
  | some params =>
    match scene_command_lines params self.scence_param self.code with
    | none => none
    | some lines =>
      let stream := (lines.map finish).flatten
      some (if params.on_command then finish [0x33, 0x01, 0x01] ++ stream else stream)

/-! ### The two comparison styles for Type-Entry selection -/

/-- The source's selection test (source line 329): the catalog hex string is a
string-prefix of the hex encoding of the raw bytes. -/
def hex_prefix_check (raw : List Nat) (s : List Char) : Bool :=
  s.isPrefixOf (bytes_to_hex_string raw)

/-- Modelled from the spec: the "direct byte-slice comparison" the spec calls
behaviorally equivalent — the hex-decoded catalog string is a byte-prefix of
the raw bytes (false when the catalog string does not hex-decode). -/
def byte_prefix_check (raw : List Nat) (s : List Char) : Bool :=
  match hex_string_to_bytes s with
  | some bs => bs.isPrefixOf raw
  | none => false

/-! ### Packet registry (`PacketManager`, source lines 107-251)

`PacketCodec` stores a type-erased encode closure keyed by `TypeId`; the
type identity of the seven registered command types is modelled by
`CodecTypeId`, and `&dyn Any` inputs by the sum type `AnyValue` (downcast
failure = `none`). -/

inductive CodecTypeId where
  | setHumidifierMode
  | notifyHumidifierMode
  | humidifierAutoMode
  | notifyHumidifierNightlightParams
  | setHumidifierNightlightParams
  | setSceneCode
  | setDevicePower
deriving DecidableEq

inductive AnyValue where
  | setHumidifierMode (v : SetHumidifierMode)
  | notifyHumidifierMode (v : NotifyHumidifierMode)
  | humidifierAutoMode (v : HumidifierAutoMode)
  | notifyHumidifierNightlightParams (v : NotifyHumidifierNightlightParams)
  | setHumidifierNightlightParams (v : SetHumidifierNightlightParams)
  | setSceneCode (v : SetSceneCode)
  | setDevicePower (v : SetDevicePower)
deriving DecidableEq

/-- `TypeId::of::<T>()` of an `AnyValue`. -/
def AnyValue.typeId : AnyValue → CodecTypeId
  | .setHumidifierMode _ => .setHumidifierMode
  | .notifyHumidifierMode _ => .notifyHumidifierMode
  | .humidifierAutoMode _ => .humidifierAutoMode
  | .notifyHumidifierNightlightParams _ => .notifyHumidifierNightlightParams
  | .setHumidifierNightlightParams _ => .setHumidifierNightlightParams
  | .setSceneCode _ => .setSceneCode
  | .setDevicePower _ => .setDevicePower

structure PacketCodec where
  type_id : CodecTypeId
  supported_skus : List String
  encode : AnyValue → Option (List Nat)
  decode : List Nat → Option GoveeBlePacket

/-- Codec built by `packet!(&["H7160"], SetHumidifierMode, ...)`. -/
def setHumidifierMode_codec : PacketCodec where
  type_id := .setHumidifierMode
  supported_skus := ["H7160"]
  encode := fun v => match v with
    | .setHumidifierMode x => some (SetHumidifierMode.encode x)
    | _ => none
  decode := SetHumidifierMode.decode

def notifyHumidifierMode_codec : PacketCodec where
  type_id := .notifyHumidifierMode
  supported_skus := ["H7160"]
  encode := fun v => match v with
    | .notifyHumidifierMode x => some (NotifyHumidifierMode.encode x)
    | _ => none
  decode := NotifyHumidifierMode.decode

def humidifierAutoMode_codec : PacketCodec where
  type_id := .humidifierAutoMode
  supported_skus := ["H7160"]
  encode := fun v => match v with
    | .humidifierAutoMode x => some (HumidifierAutoMode.encode x)
    | _ => none
  decode := HumidifierAutoMode.decode

def notifyHumidifierNightlight_codec : PacketCodec where
  type_id := .notifyHumidifierNightlightParams
  supported_skus := ["H7160"]
  encode := fun v => match v with
    | .notifyHumidifierNightlightParams x => some (NotifyHumidifierNightlightParams.encode x)
    | _ => none
  decode := NotifyHumidifierNightlightParams.decode

def setHumidifierNightlight_codec : PacketCodec where
  type_id := .setHumidifierNightlightParams
  supported_skus := ["H7160"]
  encode := fun v => match v with
    | .setHumidifierNightlightParams x => some (SetHumidifierNightlightParams.encode x)
    | _ => none
  decode := SetHumidifierNightlightParams.decode

/-- The scene codec (source lines 238-242): wildcard SKU, write-only. -/
def setSceneCode_codec (catalog : List ModelSpecificParameter) : PacketCodec where
  type_id := .setSceneCode
  supported_skus := ["*"]
  encode := fun v => match v with
    | .setSceneCode x => SetSceneCode.encode catalog x
    | _ => none
  decode := SetSceneCode.decode

def setDevicePower_codec : PacketCodec where
  type_id := .setDevicePower
  supported_skus := ["Generic:Light", "*"]
  encode := fun v => match v with
    | .setDevicePower x => some (SetDevicePower.encode x)
    | _ => none
  decode := SetDevicePower.decode

/-- `PacketManager::new` registration order (source lines 232-244). -/
def all_codecs (catalog : List ModelSpecificParameter) : List PacketCodec :=
  [setHumidifierMode_codec, notifyHumidifierMode_codec, humidifierAutoMode_codec,
   notifyHumidifierNightlight_codec, setHumidifierNightlight_codec,
   setSceneCode_codec catalog, setDevicePower_codec]

/-- The SKU filter of `map_for_sku` (source line 146): literal match or
wildcard. -/
def sku_matches (c : PacketCodec) (sku : String) : Bool :=
  c.supported_skus.any (fun s => s == sku || s == "*")

/-- The codecs `map_for_sku` selects for a SKU, in registration order.
The source stores them in a `HashMap` keyed by `TypeId`; the seven
registered codecs have pairwise-distinct type ids, so no insert conflicts
occur and the map holds exactly these codecs. -/
def applicable (catalog : List ModelSpecificParameter) (sku : String) :
    List PacketCodec :=
  (all_codecs catalog).filter (fun c => sku_matches c sku)

/-- `resolve_by_sku` (source lines 157-162): the map lookup by type id.
With pairwise-distinct type ids the `HashMap` lookup is the unique match. -/
def resolve_by_sku (catalog : List ModelSpecificParameter) (sku : String)
    (tid : CodecTypeId) : Option PacketCodec :=
  (applicable catalog sku).find? (fun c => c.type_id == tid)

/-- `encode_for_sku` (source lines 174-178). -/
def encode_for_sku (catalog : List ModelSpecificParameter) (sku : String)
    (value : AnyValue) : Option (List Nat) :=
  (resolve_by_sku catalog sku value.typeId).bind (fun codec => codec.encode value)

/-- The loop body of `decode_for_sku` (source lines 164-172) applied to one
enumeration `codecs` of the SKU's codec map: first successful decode wins;
exhaustion yields the opaque `Generic` fallback on the input bytes.
`map.values()` enumerates the `HashMap` in an unspecified order, so the
theorems below quantify over every permutation of `applicable`. -/
def firstDecode : List PacketCodec → List Nat → GoveeBlePacket
  | [], data => GoveeBlePacket.Generic data
  | c :: rest, data =>
    match c.decode data with
    | some value => value
    | none => firstDecode rest data

/-! ## Lemmas and claim theorems -/

/-! ### Frame codec facts -/

lemma resize19_length (l : List Nat) : (resize19 l).length = 19 := by
  simp [resize19]
  omega

lemma resize19_of_le {l : List Nat} (h : l.length ≤ 19) :
    resize19 l = l ++ List.replicate (19 - l.length) 0 := by
  rw [resize19, List.take_of_length_le h]

lemma finish_length (l : List Nat) : (finish l).length = 20 := by
  simp [finish, resize19_length]

lemma finish_of_le {l : List Nat} (h : l.length ≤ 19) :
    finish l = (l ++ List.replicate (19 - l.length) 0) ++
      [calculate_checksum (l ++ List.replicate (19 - l.length) 0)] := by
  rw [finish, resize19_of_le h]

lemma dropChecksum_finish (l : List Nat) : dropChecksum (finish l) = resize19 l := by
  rw [dropChecksum, finish_length]
  rw [finish]
  have h19 : (19 : Nat) = (resize19 l).length := (resize19_length l).symm
  conv in (20 - 1) => rw [show (20 - 1 : Nat) = (resize19 l).length from h19]
  exact List.take_left _ _

lemma replicate_zero_all_zero (n : Nat) :
    (List.replicate n (0 : Nat)).all (fun b => b == 0) = true := by
  simp [List.all_eq_true]

lemma take19_finish (l : List Nat) : (finish l).take 19 = resize19 l := by
  rw [finish]
  exact List.take_left' (resize19_length l)

lemma checksum_finish (l : List Nat) :
    calculate_checksum (finish l) = calculate_checksum (resize19 l) := by
  rw [calculate_checksum, take19_finish, calculate_checksum,
    List.take_of_length_le (Nat.le_of_eq (resize19_length l))]

/-- C2: for any payload of at most 19 bytes, the frame is exactly 20 bytes,
its first `payload.length` bytes are the payload, the bytes from position
`payload.length` up to 18 are zero, and the final byte is the XOR-fold of the
first 19 bytes (so dropping checksum and padding recovers the payload). -/
theorem frame_round_trip (payload : List Nat) (h : payload.length ≤ 19) :
    (finish payload).length = 20 ∧
    (finish payload).take payload.length = payload ∧
    ((finish payload).drop payload.length).take (19 - payload.length) =
      List.replicate (19 - payload.length) 0 ∧
    (finish payload).getLast? = some (calculate_checksum (finish payload)) := by
  refine ⟨finish_length payload, ?_, ?_, ?_⟩
  · rw [finish_of_le h, List.append_assoc, List.take_left]
  · rw [finish_of_le h, List.append_assoc, List.drop_left]
    exact List.take_left' (by simp)
  · rw [checksum_finish, finish, ← checksum_finish]
    exact List.getLast?_concat _

theorem frame_round_trip_witness :
    ([0x33, 0x05, 0x01, 0x20] : List Nat).length ≤ 19 ∧
    (finish [0x33, 0x05, 0x01, 0x20]).take 4 = [0x33, 0x05, 0x01, 0x20] :=
  ⟨by decide, (frame_round_trip [0x33, 0x05, 0x01, 0x20] (by decide)).2.1⟩

/-- C10: `finish` is total: it returns exactly 20 bytes on every input, and an
over-length payload is silently truncated to its first 19 bytes before
checksumming rather than rejected. -/
theorem finish_total (data : List Nat) :
    (finish data).length = 20 ∧ finish data = finish (data.take 19) := by
  refine ⟨finish_length data, ?_⟩
  have hres : resize19 (data.take 19) = resize19 data := by
    rw [resize19, resize19, List.take_take]
    simp only [Nat.min_self, List.length_take]
    congr 2
    omega
  rw [finish, finish, hres]

/-- C9: the auto-mode target humidity is offset-encoded: for a percentage
`p ≤ 100`, `from_percent p` stores wire byte `p + 128`, and `as_percent`
recovers `p` via the low-7-bit mask. -/
theorem target_humidity_offset :
    ∀ p : Nat, p ≤ 100 →
      (TargetHumidity.from_percent p).val = p + 128 ∧
      (TargetHumidity.from_percent p).as_percent = p := by
  decide

theorem target_humidity_offset_witness :
    (45 : Nat) ≤ 100 ∧ (TargetHumidity.from_percent 45).as_percent = 45 :=
  ⟨by decide, (target_humidity_offset 45 (by decide)).2⟩

/-! ### Decode-step characterizations -/

lemma decode_lit_eq_some {e : Nat} {d r : List Nat} :
    decode_lit e d = some r ↔ d = e :: r := by
  cases d with
  | nil => simp [decode_lit]
  | cons b t =>
    by_cases hb : b = e
    · subst hb
      simp [decode_lit]
    · simp [decode_lit, hb, Ne.symm hb]

lemma decode_u8_eq_some {d r : List Nat} {v : Nat} :
    decode_u8 d = some (v, r) ↔ d = v :: r := by
  cases d with
  | nil => simp [decode_u8]
  | cons b t => simp [decode_u8, And.comm, eq_comm]

lemma itob_btoi (b : Bool) : itob (btoi b) = b := by cases b <;> rfl

/-! ### Encode/decode round trips for the six fixed-layout codecs -/

lemma rt_setHumidifierMode (v : SetHumidifierMode) :
    SetHumidifierMode.decode (SetHumidifierMode.encode v) =
      some (GoveeBlePacket.SetHumidifierMode v) := by
  have hdc : dropChecksum (SetHumidifierMode.encode v) =
      0x33 :: 0x05 :: v.mode :: v.param :: List.replicate 15 0 := by
    rw [SetHumidifierMode.encode, dropChecksum_finish,
      resize19_of_le (by simp [encode_u8])]
    simp [encode_u8]
  simp [SetHumidifierMode.decode, hdc, decode_lit, decode_u8, decode_zero_tail,
    replicate_zero_all_zero]

lemma rt_notifyHumidifierMode (v : NotifyHumidifierMode) :
    NotifyHumidifierMode.decode (NotifyHumidifierMode.encode v) =
      some (GoveeBlePacket.NotifyHumidifierMode v) := by
  have hdc : dropChecksum (NotifyHumidifierMode.encode v) =
      0xaa :: 0x05 :: 0x00 :: v.mode :: v.param :: List.replicate 14 0 := by
    rw [NotifyHumidifierMode.encode, dropChecksum_finish,
      resize19_of_le (by simp [encode_u8])]
    simp [encode_u8]
  simp [NotifyHumidifierMode.decode, hdc, decode_lit, decode_u8, decode_zero_tail,
    replicate_zero_all_zero]

lemma rt_humidifierAutoMode (v : HumidifierAutoMode) :
    HumidifierAutoMode.decode (HumidifierAutoMode.encode v) =
      some (GoveeBlePacket.NotifyHumidifierAutoMode v) := by
  have hdc : dropChecksum (HumidifierAutoMode.encode v) =
      0xaa :: 0x05 :: 0x03 :: v.target_humidity.val :: List.replicate 15 0 := by
    rw [HumidifierAutoMode.encode, dropChecksum_finish,
      resize19_of_le (by simp [TargetHumidity.encode_param])]
    simp [TargetHumidity.encode_param]
  simp [HumidifierAutoMode.decode, hdc, decode_lit, decode_u8, decode_zero_tail,
    replicate_zero_all_zero]

lemma rt_notifyHumidifierNightlight (v : NotifyHumidifierNightlightParams) :
    NotifyHumidifierNightlightParams.decode (NotifyHumidifierNightlightParams.encode v) =
      some (GoveeBlePacket.NotifyHumidifierNightlight v) := by
  have hdc : dropChecksum (NotifyHumidifierNightlightParams.encode v) =
      0xaa :: 0x1b :: btoi v.on_ :: v.brightness :: v.r :: v.g :: v.b ::
        List.replicate 12 0 := by
    rw [NotifyHumidifierNightlightParams.encode, dropChecksum_finish,
      resize19_of_le (by simp [encode_u8, encode_bool])]
    simp [encode_u8, encode_bool]
  simp [NotifyHumidifierNightlightParams.decode, hdc, decode_lit, decode_u8,
    decode_bool, decode_zero_tail, replicate_zero_all_zero, itob_btoi]

lemma rt_setHumidifierNightlight (v : SetHumidifierNightlightParams) :
    SetHumidifierNightlightParams.decode (SetHumidifierNightlightParams.encode v) =
      some (GoveeBlePacket.SetHumidifierNightlight v) := by
  have hdc : dropChecksum (SetHumidifierNightlightParams.encode v) =
      0x33 :: 0x1b :: btoi v.on_ :: v.brightness :: v.r :: v.g :: v.b ::
        List.replicate 12 0 := by
    rw [SetHumidifierNightlightParams.encode, dropChecksum_finish,
      resize19_of_le (by simp [encode_u8, encode_bool])]
    simp [encode_u8, encode_bool]
  simp [SetHumidifierNightlightParams.decode, hdc, decode_lit, decode_u8,
    decode_bool, decode_zero_tail, replicate_zero_all_zero, itob_btoi]

lemma rt_setDevicePower (v : SetDevicePower) :
    SetDevicePower.decode (SetDevicePower.encode v) =
      some (GoveeBlePacket.SetDevicePower v) := by
  have hdc : dropChecksum (SetDevicePower.encode v) =
      0x33 :: 0x01 :: btoi v.on_ :: List.replicate 16 0 := by
    rw [SetDevicePower.encode, dropChecksum_finish,
      resize19_of_le (by simp [encode_bool])]
    simp [encode_bool]
  simp [SetDevicePower.decode, hdc, decode_lit, decode_bool, decode_u8,
    decode_zero_tail, replicate_zero_all_zero, itob_btoi]

/-! ### Decoder success shapes: a successful decode pins the literal head -/

lemma shape_setHumidifierMode {data : List Nat} {pkt : GoveeBlePacket}
    (h : SetHumidifierMode.decode data = some pkt) :
    ∃ t, dropChecksum data = 0x33 :: 0x05 :: t := by
  unfold SetHumidifierMode.decode at h
  simp only [bind, Option.bind_eq_some] at h
  obtain ⟨d1, h1, h⟩ := h
  obtain ⟨d2, h2, _⟩ := h
  rw [decode_lit_eq_some] at h1 h2
  exact ⟨d2, by rw [h1, h2]⟩

lemma shape_notifyHumidifierMode {data : List Nat} {pkt : GoveeBlePacket}
    (h : NotifyHumidifierMode.decode data = some pkt) :
    ∃ t, dropChecksum data = 0xaa :: 0x05 :: 0x00 :: t := by
  unfold NotifyHumidifierMode.decode at h
  simp only [bind, Option.bind_eq_some] at h
  obtain ⟨d1, h1, h⟩ := h
  obtain ⟨d2, h2, h⟩ := h
  obtain ⟨d3, h3, _⟩ := h
  rw [decode_lit_eq_some] at h1 h2 h3
  exact ⟨d3, by rw [h1, h2, h3]⟩

lemma shape_humidifierAutoMode {data : List Nat} {pkt : GoveeBlePacket}
    (h : HumidifierAutoMode.decode data = some pkt) :
    ∃ t, dropChecksum data = 0xaa :: 0x05 :: 0x03 :: t := by
  unfold HumidifierAutoMode.decode at h
  simp only [bind, Option.bind_eq_some] at h
  obtain ⟨d1, h1, h⟩ := h
  obtain ⟨d2, h2, h⟩ := h
  obtain ⟨d3, h3, _⟩ := h
  rw [decode_lit_eq_some] at h1 h2 h3
  exact ⟨d3, by rw [h1, h2, h3]⟩

lemma shape_notifyHumidifierNightlight {data : List Nat} {pkt : GoveeBlePacket}
    (h : NotifyHumidifierNightlightParams.decode data = some pkt) :
    ∃ t, dropChecksum data = 0xaa :: 0x1b :: t := by
  unfold NotifyHumidifierNightlightParams.decode at h
  simp only [bind, Option.bind_eq_some] at h
  obtain ⟨d1, h1, h⟩ := h
  obtain ⟨d2, h2, _⟩ := h
  rw [decode_lit_eq_some] at h1 h2
  exact ⟨d2, by rw [h1, h2]⟩

lemma shape_setHumidifierNightlight {data : List Nat} {pkt : GoveeBlePacket}
    (h : SetHumidifierNightlightParams.decode data = some pkt) :
    ∃ t, dropChecksum data = 0x33 :: 0x1b :: t := by
  unfold SetHumidifierNightlightParams.decode at h
  simp only [bind, Option.bind_eq_some] at h
  obtain ⟨d1, h1, h⟩ := h
  obtain ⟨d2, h2, _⟩ := h
  rw [decode_lit_eq_some] at h1 h2
  exact ⟨d2, by rw [h1, h2]⟩

lemma shape_setDevicePower {data : List Nat} {pkt : GoveeBlePacket}
    (h : SetDevicePower.decode data = some pkt) :
    ∃ t, dropChecksum data = 0x33 :: 0x01 :: t := by
  unfold SetDevicePower.decode at h
  simp only [bind, Option.bind_eq_some] at h
  obtain ⟨d1, h1, h⟩ := h
  obtain ⟨d2, h2, _⟩ := h
  rw [decode_lit_eq_some] at h1 h2
  exact ⟨d2, by rw [h1, h2]⟩

/-! ### Disjointness of registered decoders -/

/-- Two codecs never both accept the same byte buffer. -/
def DisjointDec (c1 c2 : PacketCodec) : Prop :=
  ∀ data, ¬(((c1.decode data).isSome : Prop) ∧ ((c2.decode data).isSome : Prop))

lemma disjointDec_symm {c1 c2 : PacketCodec} (h : DisjointDec c1 c2) :
    DisjointDec c2 c1 :=
  fun data hc => h data ⟨hc.2, hc.1⟩

lemma disj_scene_left (catalog : List ModelSpecificParameter) (c : PacketCodec) :
    DisjointDec (setSceneCode_codec catalog) c := by
  intro data h
  exact absurd h.1 (by simp [setSceneCode_codec, SetSceneCode.decode])

lemma disj_scene_right (catalog : List ModelSpecificParameter) (c : PacketCodec) :
    DisjointDec c (setSceneCode_codec catalog) :=
  disjointDec_symm (disj_scene_left catalog c)

lemma disj_shm_nhm : DisjointDec setHumidifierMode_codec notifyHumidifierMode_codec := by
  intro data h
  obtain ⟨h1, h2⟩ := h
  rw [Option.isSome_iff_exists] at h1 h2
  obtain ⟨p1, h1⟩ := h1
  obtain ⟨p2, h2⟩ := h2
  obtain ⟨t1, e1⟩ := shape_setHumidifierMode h1
  obtain ⟨t2, e2⟩ := shape_notifyHumidifierMode h2
  rw [e1] at e2
  simp at e2

lemma disj_shm_ham : DisjointDec setHumidifierMode_codec humidifierAutoMode_codec := by
  intro data h
  obtain ⟨h1, h2⟩ := h
  rw [Option.isSome_iff_exists] at h1 h2
  obtain ⟨p1, h1⟩ := h1
  obtain ⟨p2, h2⟩ := h2
  obtain ⟨t1, e1⟩ := shape_setHumidifierMode h1
  obtain ⟨t2, e2⟩ := shape_humidifierAutoMode h2
  rw [e1] at e2
  simp at e2

lemma disj_shm_nnl : DisjointDec setHumidifierMode_codec notifyHumidifierNightlight_codec := by
  intro data h
  obtain ⟨h1, h2⟩ := h
  rw [Option.isSome_iff_exists] at h1 h2
  obtain ⟨p1, h1⟩ := h1
  obtain ⟨p2, h2⟩ := h2
  obtain ⟨t1, e1⟩ := shape_setHumidifierMode h1
  obtain ⟨t2, e2⟩ := shape_notifyHumidifierNightlight h2
  rw [e1] at e2
  simp at e2

lemma disj_shm_snl : DisjointDec setHumidifierMode_codec setHumidifierNightlight_codec := by
  intro data h
  obtain ⟨h1, h2⟩ := h
  rw [Option.isSome_iff_exists] at h1 h2
  obtain ⟨p1, h1⟩ := h1
  obtain ⟨p2, h2⟩ := h2
  obtain ⟨t1, e1⟩ := shape_setHumidifierMode h1
  obtain ⟨t2, e2⟩ := shape_setHumidifierNightlight h2
  rw [e1] at e2
  simp at e2

lemma disj_shm_sdp : DisjointDec setHumidifierMode_codec setDevicePower_codec := by
  intro data h
  obtain ⟨h1, h2⟩ := h
  rw [Option.isSome_iff_exists] at h1 h2
  obtain ⟨p1, h1⟩ := h1
  obtain ⟨p2, h2⟩ := h2
  obtain ⟨t1, e1⟩ := shape_setHumidifierMode h1
  obtain ⟨t2, e2⟩ := shape_setDevicePower h2
  rw [e1] at e2
  simp at e2

lemma disj_nhm_ham : DisjointDec notifyHumidifierMode_codec humidifierAutoMode_codec := by
  intro data h
  obtain ⟨h1, h2⟩ := h
  rw [Option.isSome_iff_exists] at h1 h2
  obtain ⟨p1, h1⟩ := h1
  obtain ⟨p2, h2⟩ := h2
  obtain ⟨t1, e1⟩ := shape_notifyHumidifierMode h1
  obtain ⟨t2, e2⟩ := shape_humidifierAutoMode h2
  rw [e1] at e2
  simp at e2

lemma disj_nhm_nnl : DisjointDec notifyHumidifierMode_codec notifyHumidifierNightlight_codec := by
  intro data h
  obtain ⟨h1, h2⟩ := h
  rw [Option.isSome_iff_exists] at h1 h2
  obtain ⟨p1, h1⟩ := h1
  obtain ⟨p2, h2⟩ := h2
  obtain ⟨t1, e1⟩ := shape_notifyHumidifierMode h1
  obtain ⟨t2, e2⟩ := shape_notifyHumidifierNightlight h2
  rw [e1] at e2
  simp at e2

lemma disj_nhm_snl : DisjointDec notifyHumidifierMode_codec setHumidifierNightlight_codec := by
  intro data h
  obtain ⟨h1, h2⟩ := h
  rw [Option.isSome_iff_exists] at h1 h2
  obtain ⟨p1, h1⟩ := h1
  obtain ⟨p2, h2⟩ := h2
  obtain ⟨t1, e1⟩ := shape_notifyHumidifierMode h1
  obtain ⟨t2, e2⟩ := shape_setHumidifierNightlight h2
  rw [e1] at e2
  simp at e2

lemma disj_nhm_sdp : DisjointDec notifyHumidifierMode_codec setDevicePower_codec := by
  intro data h
  obtain ⟨h1, h2⟩ := h
  rw [Option.isSome_iff_exists] at h1 h2
  obtain ⟨p1, h1⟩ := h1
  obtain ⟨p2, h2⟩ := h2
  obtain ⟨t1, e1⟩ := shape_notifyHumidifierMode h1
  obtain ⟨t2, e2⟩ := shape_setDevicePower h2
  rw [e1] at e2
  simp at e2

lemma disj_ham_nnl : DisjointDec humidifierAutoMode_codec notifyHumidifierNightlight_codec := by
  intro data h
  obtain ⟨h1, h2⟩ := h
  rw [Option.isSome_iff_exists] at h1 h2
  obtain ⟨p1, h1⟩ := h1
  obtain ⟨p2, h2⟩ := h2
  obtain ⟨t1, e1⟩ := shape_humidifierAutoMode h1
  obtain ⟨t2, e2⟩ := shape_notifyHumidifierNightlight h2
  rw [e1] at e2
  simp at e2

lemma disj_ham_snl : DisjointDec humidifierAutoMode_codec setHumidifierNightlight_codec := by
  intro data h
  obtain ⟨h1, h2⟩ := h
  rw [Option.isSome_iff_exists] at h1 h2
  obtain ⟨p1, h1⟩ := h1
  obtain ⟨p2, h2⟩ := h2
  obtain ⟨t1, e1⟩ := shape_humidifierAutoMode h1
  obtain ⟨t2, e2⟩ := shape_setHumidifierNightlight h2
  rw [e1] at e2
  simp at e2

lemma disj_ham_sdp : DisjointDec humidifierAutoMode_codec setDevicePower_codec := by
  intro data h
  obtain ⟨h1, h2⟩ := h
  rw [Option.isSome_iff_exists] at h1 h2
  obtain ⟨p1, h1⟩ := h1
  obtain ⟨p2, h2⟩ := h2
  obtain ⟨t1, e1⟩ := shape_humidifierAutoMode h1
  obtain ⟨t2, e2⟩ := shape_setDevicePower h2
  rw [e1] at e2
  simp at e2

lemma disj_nnl_snl : DisjointDec notifyHumidifierNightlight_codec setHumidifierNightlight_codec := by
  intro data h
  obtain ⟨h1, h2⟩ := h
  rw [Option.isSome_iff_exists] at h1 h2
  obtain ⟨p1, h1⟩ := h1
  obtain ⟨p2, h2⟩ := h2
  obtain ⟨t1, e1⟩ := shape_notifyHumidifierNightlight h1
  obtain ⟨t2, e2⟩ := shape_setHumidifierNightlight h2
  rw [e1] at e2
  simp at e2

lemma disj_nnl_sdp : DisjointDec notifyHumidifierNightlight_codec setDevicePower_codec := by
  intro data h
  obtain ⟨h1, h2⟩ := h
  rw [Option.isSome_iff_exists] at h1 h2
  obtain ⟨p1, h1⟩ := h1
  obtain ⟨p2, h2⟩ := h2
  obtain ⟨t1, e1⟩ := shape_notifyHumidifierNightlight h1
  obtain ⟨t2, e2⟩ := shape_setDevicePower h2
  rw [e1] at e2
  simp at e2

lemma disj_snl_sdp : DisjointDec setHumidifierNightlight_codec setDevicePower_codec := by
  intro data h
  obtain ⟨h1, h2⟩ := h
  rw [Option.isSome_iff_exists] at h1 h2
  obtain ⟨p1, h1⟩ := h1
  obtain ⟨p2, h2⟩ := h2
  obtain ⟨t1, e1⟩ := shape_setHumidifierNightlight h1
  obtain ⟨t2, e2⟩ := shape_setDevicePower h2
  rw [e1] at e2
  simp at e2

/-- The seven registered codecs have pairwise-disjoint decoders. -/
lemma all_codecs_pairwise (catalog : List ModelSpecificParameter) :
    (all_codecs catalog).Pairwise DisjointDec := by
  rw [all_codecs]
  refine List.Pairwise.cons ?_ (List.Pairwise.cons ?_ (List.Pairwise.cons ?_
    (List.Pairwise.cons ?_ (List.Pairwise.cons ?_ (List.Pairwise.cons ?_
    (List.Pairwise.cons ?_ List.Pairwise.nil))))))
  · intro c hc
    rcases List.mem_cons.mp hc with rfl | hc
    · exact disj_shm_nhm
    rcases List.mem_cons.mp hc with rfl | hc
    · exact disj_shm_ham
    rcases List.mem_cons.mp hc with rfl | hc
    · exact disj_shm_nnl
    rcases List.mem_cons.mp hc with rfl | hc
    · exact disj_shm_snl
    rcases List.mem_cons.mp hc with rfl | hc
    · exact disj_scene_right catalog _
    rcases List.mem_singleton.mp hc with rfl
    exact disj_shm_sdp
  · intro c hc
    rcases List.mem_cons.mp hc with rfl | hc
    · exact disj_nhm_ham
    rcases List.mem_cons.mp hc with rfl | hc
    · exact disj_nhm_nnl
    rcases List.mem_cons.mp hc with rfl | hc
    · exact disj_nhm_snl
    rcases List.mem_cons.mp hc with rfl | hc
    · exact disj_scene_right catalog _
    rcases List.mem_singleton.mp hc with rfl
    exact disj_nhm_sdp
  · intro c hc
    rcases List.mem_cons.mp hc with rfl | hc
    · exact disj_ham_nnl
    rcases List.mem_cons.mp hc with rfl | hc
    · exact disj_ham_snl
    rcases List.mem_cons.mp hc with rfl | hc
    · exact disj_scene_right catalog _
    rcases List.mem_singleton.mp hc with rfl
    exact disj_ham_sdp
  · intro c hc
    rcases List.mem_cons.mp hc with rfl | hc
    · exact disj_nnl_snl
    rcases List.mem_cons.mp hc with rfl | hc
    · exact disj_scene_right catalog _
    rcases List.mem_singleton.mp hc with rfl
    exact disj_nnl_sdp
  · intro c hc
    rcases List.mem_cons.mp hc with rfl | hc
    · exact disj_scene_right catalog _
    rcases List.mem_singleton.mp hc with rfl
    exact disj_snl_sdp
  · intro c hc
    rcases List.mem_singleton.mp hc with rfl
    exact disj_scene_left catalog _
  · intro c hc
    exact absurd hc (List.not_mem_nil c)

/-! ### `decode_for_sku` behaviour -/

lemma applicable_pairwise (catalog : List ModelSpecificParameter) (sku : String) :
    (applicable catalog sku).Pairwise DisjointDec :=
  List.Pairwise.sublist (List.filter_sublist _) (all_codecs_pairwise catalog)

/-- With pairwise-disjoint decoders, the unique accepting codec's result is
the result of the whole scan, wherever it sits in the enumeration. -/
lemma firstDecode_of_mem {l : List PacketCodec} {data : List Nat}
    {c : PacketCodec} {v : GoveeBlePacket} (hp : l.Pairwise DisjointDec)
    (hm : c ∈ l) (hv : c.decode data = some v) : firstDecode l data = v := by
  induction l with
  | nil => cases hm
  | cons a t ih =>
    rcases List.mem_cons.mp hm with rfl | hmem
    · simp [firstDecode, hv]
    · have hD : DisjointDec a c := (List.pairwise_cons.mp hp).1 c hmem
      have ha : a.decode data = none := by
        cases hh : a.decode data with
        | none => rfl
        | some w => exact absurd ⟨by simp [hh], by simp [hv]⟩ (hD data)
      simp only [firstDecode, ha]
      exact ih (List.pairwise_cons.mp hp).2 hmem

/-- The scan result is invariant under permutation of a pairwise-disjoint
codec list. -/
lemma firstDecode_perm {l1 l2 : List PacketCodec} (p : l1.Perm l2) :
    l1.Pairwise DisjointDec → ∀ data, firstDecode l1 data = firstDecode l2 data := by
  induction p with
  | nil =>
    intro _ _
    rfl
  | cons x p ih =>
    intro hp data
    cases hx : x.decode data with
    | some w => simp [firstDecode, hx]
    | none =>
      simp only [firstDecode, hx]
      exact ih (List.pairwise_cons.mp hp).2 data
  | swap x y l =>
    intro hp data
    have hD : DisjointDec y x := (List.pairwise_cons.mp hp).1 x (List.mem_cons_self x l)
    cases hx : x.decode data with
    | some w =>
      cases hy : y.decode data with
      | some u => exact absurd ⟨by simp [hy], by simp [hx]⟩ (hD data)
      | none => simp [firstDecode, hx, hy]
    | none =>
      cases hy : y.decode data with
      | some u => simp [firstDecode, hx, hy]
      | none => simp [firstDecode, hx, hy]
  | trans p1 p2 ih1 ih2 =>
    intro hp data
    rw [ih1 hp data]
    exact ih2 ((p1.pairwise_iff (fun h => disjointDec_symm h)).mp hp) data

/-- C5: whatever enumeration order the SKU's codec map yields, the decode
scan returns exactly what trying the SKU's applicable codecs in registration
order returns: the first successful decode (or the Generic fallback). -/
theorem decode_for_sku_registration_order (catalog : List ModelSpecificParameter)
    (sku : String) (data : List Nat) (l : List PacketCodec)
    (hl : l.Perm (applicable catalog sku)) :
    firstDecode l data = firstDecode (applicable catalog sku) data :=
  firstDecode_perm hl
    ((hl.pairwise_iff (fun h => disjointDec_symm h)).mpr
      (applicable_pairwise catalog sku)) data

theorem decode_for_sku_registration_order_witness :
    (List.Perm [setDevicePower_codec, setSceneCode_codec []]
        (applicable [] ("ZZZ"))) ∧
    firstDecode [setDevicePower_codec, setSceneCode_codec []] [0x33, 0x01, 0x01] =
      firstDecode (applicable [] ("ZZZ")) [0x33, 0x01, 0x01] := by
  have happ : applicable [] ("ZZZ") = [setSceneCode_codec [], setDevicePower_codec] := by
    rfl
  have hperm : List.Perm [setDevicePower_codec, setSceneCode_codec []]
      (applicable [] ("ZZZ")) := by
    rw [happ]
    exact List.Perm.swap _ _ _
  exact ⟨hperm, decode_for_sku_registration_order [] ("ZZZ") [0x33, 0x01, 0x01] _ hperm⟩

/-- C6: decode never fails outward: when every applicable codec rejects the
bytes (in whatever order the codec map is enumerated), the result is the
opaque Generic packet carrying the input bytes verbatim. -/
theorem decode_generic_fallback (catalog : List ModelSpecificParameter)
    (sku : String) (data : List Nat) (l : List PacketCodec)
    (_hl : l.Perm (applicable catalog sku))
    (hnone : ∀ c ∈ l, c.decode data = none) :
    firstDecode l data = GoveeBlePacket.Generic data := by
  clear _hl
  induction l with
  | nil => rfl
  | cons a t ih =>
    have ha : a.decode data = none := hnone a (List.mem_cons_self a t)
    simp only [firstDecode, ha]
    exact ih (fun c hc => hnone c (List.mem_cons_of_mem a hc))

theorem decode_generic_fallback_witness :
    (∀ c ∈ applicable [] ("ZZZ"), c.decode [1, 2, 3] = none) ∧
    firstDecode (applicable [] ("ZZZ")) [1, 2, 3] = GoveeBlePacket.Generic [1, 2, 3] := by
  refine ⟨by decide, ?_⟩
  exact decode_generic_fallback [] ("ZZZ") [1, 2, 3] _ (List.Perm.refl _) (by decide)

/-! ### Codec resolution facts -/

lemma applicable_H7160 (catalog : List ModelSpecificParameter) :
    applicable catalog ("H7160") = all_codecs catalog := rfl

/-- The wildcard power codec is applicable to every SKU. -/
lemma mem_power_applicable (catalog : List ModelSpecificParameter) (sku : String) :
    setDevicePower_codec ∈ applicable catalog sku :=
  List.mem_filter.mpr ⟨by simp [all_codecs], by simp [sku_matches, setDevicePower_codec]⟩

lemma sku_matches_power (sku : String) : sku_matches setDevicePower_codec sku = true := by
  simp [sku_matches, setDevicePower_codec]

lemma sku_matches_scene (catalog : List ModelSpecificParameter) (sku : String) :
    sku_matches (setSceneCode_codec catalog) sku = true := by
  simp [sku_matches, setSceneCode_codec]

/-- For every SKU, type-id lookup for `SetDevicePower` resolves to the
wildcard power codec (the only codec with that type id). -/
lemma resolve_power (catalog : List ModelSpecificParameter) (sku : String) :
    resolve_by_sku catalog sku CodecTypeId.setDevicePower = some setDevicePower_codec := by
  unfold resolve_by_sku applicable all_codecs
  cases h1 : sku_matches setHumidifierMode_codec sku <;>
    cases h2 : sku_matches notifyHumidifierMode_codec sku <;>
      cases h3 : sku_matches humidifierAutoMode_codec sku <;>
        cases h4 : sku_matches notifyHumidifierNightlight_codec sku <;>
          cases h5 : sku_matches setHumidifierNightlight_codec sku <;>
            simp [List.filter_cons, h1, h2, h3, h4, h5, sku_matches_power,
              sku_matches_scene, List.find?,
              show (setHumidifierMode_codec.type_id == CodecTypeId.setDevicePower) = false from rfl,
              show (notifyHumidifierMode_codec.type_id == CodecTypeId.setDevicePower) = false from rfl,
              show (humidifierAutoMode_codec.type_id == CodecTypeId.setDevicePower) = false from rfl,
              show (notifyHumidifierNightlight_codec.type_id == CodecTypeId.setDevicePower) = false from rfl,
              show (setHumidifierNightlight_codec.type_id == CodecTypeId.setDevicePower) = false from rfl,
              show ((setSceneCode_codec catalog).type_id == CodecTypeId.setDevicePower) = false from rfl,
              show (setDevicePower_codec.type_id == CodecTypeId.setDevicePower) = true from rfl]

/-- Shared step: the unique accepting codec decides the scan result for every
enumeration order of the SKU's codec map. -/
lemma decode_encoded {catalog : List ModelSpecificParameter} {sku : String}
    {data : List Nat} {c : PacketCodec} {v : GoveeBlePacket} {l : List PacketCodec}
    (hl : l.Perm (applicable catalog sku)) (hmem : c ∈ applicable catalog sku)
    (hv : c.decode data = some v) : firstDecode l data = v :=
  firstDecode_of_mem
    ((hl.pairwise_iff (fun h => disjointDec_symm h)).mpr (applicable_pairwise catalog sku))
    (hl.mem_iff.mpr hmem) hv

/-- C1: for every fixed-layout command type and every supporting SKU,
decoding the framed output of `encode_for_sku` reproduces the original typed
value, for arbitrary field values and any enumeration order of the SKU's
codec map; concretely, `SetHumidifierMode{mode:1, param:0x20}` on `H7160`
encodes to `33 05 01 20` plus fifteen zero bytes and checksum `17`. -/
theorem codec_round_trip :
    (∀ (v : SetHumidifierMode) (catalog : List ModelSpecificParameter)
        (l : List PacketCodec), l.Perm (applicable catalog ("H7160")) →
        (encode_for_sku catalog ("H7160") (AnyValue.setHumidifierMode v)).map
          (firstDecode l) = some (GoveeBlePacket.SetHumidifierMode v)) ∧
    (∀ (v : NotifyHumidifierMode) (catalog : List ModelSpecificParameter)
        (l : List PacketCodec), l.Perm (applicable catalog ("H7160")) →
        (encode_for_sku catalog ("H7160") (AnyValue.notifyHumidifierMode v)).map
          (firstDecode l) = some (GoveeBlePacket.NotifyHumidifierMode v)) ∧
    (∀ (v : HumidifierAutoMode) (catalog : List ModelSpecificParameter)
        (l : List PacketCodec), l.Perm (applicable catalog ("H7160")) →
        (encode_for_sku catalog ("H7160") (AnyValue.humidifierAutoMode v)).map
          (firstDecode l) = some (GoveeBlePacket.NotifyHumidifierAutoMode v)) ∧
    (∀ (v : NotifyHumidifierNightlightParams) (catalog : List ModelSpecificParameter)
        (l : List PacketCodec), l.Perm (applicable catalog ("H7160")) →
        (encode_for_sku catalog ("H7160") (AnyValue.notifyHumidifierNightlightParams v)).map
          (firstDecode l) = some (GoveeBlePacket.NotifyHumidifierNightlight v)) ∧
    (∀ (v : SetHumidifierNightlightParams) (catalog : List ModelSpecificParameter)
        (l : List PacketCodec), l.Perm (applicable catalog ("H7160")) →
        (encode_for_sku catalog ("H7160") (AnyValue.setHumidifierNightlightParams v)).map
          (firstDecode l) = some (GoveeBlePacket.SetHumidifierNightlight v)) ∧
    (∀ (v : SetDevicePower) (catalog : List ModelSpecificParameter) (sku : String)
        (l : List PacketCodec), l.Perm (applicable catalog sku) →
        (encode_for_sku catalog sku (AnyValue.setDevicePower v)).map
          (firstDecode l) = some (GoveeBlePacket.SetDevicePower v)) ∧
    (∀ catalog : List ModelSpecificParameter,
        encode_for_sku catalog ("H7160") (AnyValue.setHumidifierMode ⟨1, 0x20⟩) =
          some [0x33, 0x05, 0x01, 0x20, 0, 0, 0, 0, 0, 0, 0, 0, 0, 0, 0, 0, 0, 0, 0, 0x17]) := by
  refine ⟨?_, ?_, ?_, ?_, ?_, ?_, ?_⟩
  · intro v catalog l hl
    have henc : encode_for_sku catalog ("H7160") (AnyValue.setHumidifierMode v) =
        some (SetHumidifierMode.encode v) := rfl
    rw [henc, Option.map_some']
    have hmem : setHumidifierMode_codec ∈ applicable catalog ("H7160") := by
      rw [applicable_H7160]
      simp [all_codecs]
    exact congrArg some (decode_encoded hl hmem (rt_setHumidifierMode v))
  · intro v catalog l hl
    have henc : encode_for_sku catalog ("H7160") (AnyValue.notifyHumidifierMode v) =
        some (NotifyHumidifierMode.encode v) := rfl
    rw [henc, Option.map_some']
    have hmem : notifyHumidifierMode_codec ∈ applicable catalog ("H7160") := by
      rw [applicable_H7160]
      simp [all_codecs]
    exact congrArg some (decode_encoded hl hmem (rt_notifyHumidifierMode v))
  · intro v catalog l hl
    have henc : encode_for_sku catalog ("H7160") (AnyValue.humidifierAutoMode v) =
        some (HumidifierAutoMode.encode v) := rfl
    rw [henc, Option.map_some']
    have hmem : humidifierAutoMode_codec ∈ applicable catalog ("H7160") := by
      rw [applicable_H7160]
      simp [all_codecs]
    exact congrArg some (decode_encoded hl hmem (rt_humidifierAutoMode v))
  · intro v catalog l hl
    have henc : encode_for_sku catalog ("H7160") (AnyValue.notifyHumidifierNightlightParams v) =
        some (NotifyHumidifierNightlightParams.encode v) := rfl
    rw [henc, Option.map_some']
    have hmem : notifyHumidifierNightlight_codec ∈ applicable catalog ("H7160") := by
      rw [applicable_H7160]
      simp [all_codecs]
    exact congrArg some (decode_encoded hl hmem (rt_notifyHumidifierNightlight v))
  · intro v catalog l hl
    have henc : encode_for_sku catalog ("H7160") (AnyValue.setHumidifierNightlightParams v) =
        some (SetHumidifierNightlightParams.encode v) := rfl
    rw [henc, Option.map_some']
    have hmem : setHumidifierNightlight_codec ∈ applicable catalog ("H7160") := by
      rw [applicable_H7160]
      simp [all_codecs]
    exact congrArg some (decode_encoded hl hmem (rt_setHumidifierNightlight v))
  · intro v catalog sku l hl
    have henc : encode_for_sku catalog sku (AnyValue.setDevicePower v) =
        some (SetDevicePower.encode v) := by
      unfold encode_for_sku
      rw [show (AnyValue.setDevicePower v).typeId = CodecTypeId.setDevicePower from rfl,
        resolve_power]
      rfl
    rw [henc, Option.map_some']
    exact congrArg some (decode_encoded hl
      (mem_power_applicable catalog sku) (rt_setDevicePower v))
  · intro catalog
    have henc : encode_for_sku catalog ("H7160") (AnyValue.setHumidifierMode ⟨1, 0x20⟩) =
        some (SetHumidifierMode.encode ⟨1, 0x20⟩) := rfl
    rw [henc]
    rfl

theorem codec_round_trip_witness :
    (encode_for_sku [] ("H7160") (AnyValue.setHumidifierMode ⟨1, 0x20⟩)).map
      (firstDecode (applicable [] ("H7160"))) =
      some (GoveeBlePacket.SetHumidifierMode ⟨1, 0x20⟩) :=
  codec_round_trip.1 ⟨1, 0x20⟩ [] _ (List.Perm.refl _)

/-! ### Segmentation loop facts -/

lemma seg_loop_len_le (marker num_lines : Nat) (payload : List Nat) :
    ∀ (r i cursor : Nat),
      (seg_loop marker num_lines payload i cursor r).length ≤ r := by
  intro r
  induction r with
  | zero =>
    intro i cursor
    simp [seg_loop]
  | succ r ih =>
    intro i cursor
    rw [seg_loop]
    split
    · simp
    · simpa using ih (i + 1) (min (cursor + 17) payload.length)

lemma seg_loop_length_pos (marker num_lines : Nat) (payload : List Nat) :
    ∀ (r i cursor : Nat), 0 < i →
      (r = 0 ∨ cursor + 17 * (r - 1) < payload.length) →
      (seg_loop marker num_lines payload i cursor r).length = r := by
  intro r
  induction r with
  | zero =>
    intro i cursor _ _
    simp [seg_loop]
  | succ r ih =>
    intro i cursor hi hcond
    have hcur : cursor < payload.length := by omega
    rw [seg_loop, if_neg (by omega)]
    simp only [List.length_cons]
    rw [ih (i + 1) (min (cursor + 17) payload.length) (by omega) (by
      rcases Nat.eq_zero_or_pos r with rfl | hr
      · exact Or.inl rfl
      · refine Or.inr ?_
        have hmin : min (cursor + 17) payload.length ≤ cursor + 17 := Nat.min_le_left _ _
        omega)]

lemma seg_loop_length_start (marker num_lines : Nat) (payload : List Nat) :
    ∀ (r cursor : Nat),
      (r ≤ 1 ∨ cursor + 17 * (r - 1) < payload.length) →
      (seg_loop marker num_lines payload 0 cursor r).length = r := by
  intro r
  cases r with
  | zero =>
    intro cursor _
    simp [seg_loop]
  | succ r =>
    intro cursor hcond
    rw [seg_loop, if_neg (by omega)]
    simp only [List.length_cons]
    rw [seg_loop_length_pos marker num_lines payload r 1 _ (by omega) (by
      rcases Nat.eq_zero_or_pos r with rfl | hr
      · exact Or.inl rfl
      · refine Or.inr ?_
        have hmin : min (cursor + 17) payload.length ≤ cursor + 17 := Nat.min_le_left _ _
        omega)]

lemma scene_full_payload_length (data : List Nat) :
    (scene_full_payload data).length = 2 + data.length := by
  simp [scene_full_payload]
  omega

lemma scene_num_lines_byte_eq (data : List Nat) :
    scene_num_lines_byte data = (max ((2 + data.length + 16) / 17) 1) % 256 := by
  simp [scene_num_lines_byte]
  congr 2
  omega

lemma scene_lines_length (marker : Nat) (data : List Nat)
    (hbound : max 1 ((2 + data.length + 16) / 17) ≤ 255) :
    (scene_lines marker data).length = max 1 ((2 + data.length + 16) / 17) := by
  have hq : scene_num_lines_byte data = max 1 ((2 + data.length + 16) / 17) := by
    rw [scene_num_lines_byte_eq, Nat.max_comm]
    exact Nat.mod_eq_of_lt (by omega)
  rw [scene_lines, hq]
  apply seg_loop_length_start
  rw [scene_full_payload_length]
  rcases le_or_lt (max 1 ((2 + data.length + 16) / 17)) 1 with h1 | h1
  · exact Or.inl h1
  · refine Or.inr ?_
    have hmax : max 1 ((2 + data.length + 16) / 17) = (2 + data.length + 16) / 17 := by
      omega
    rw [hmax]
    have hdm : (2 + data.length + 16) / 17 * 17 ≤ 2 + data.length + 16 :=
      Nat.div_mul_le_self _ _
    omega

/-- C3 (amended): as long as the line count fits in the `u8` count byte
(`max(1, ceil((2+len)/17)) ≤ 255`), the number of segmentation lines equals
`max(1, ceil((2 + len(segmentation payload)) / 17))`; in particular a full
payload whose length `2 + len` is an exact multiple of 17 produces exactly
`(2+len)/17` lines, not one more. -/
theorem scene_line_count (marker : Nat) (data : List Nat)
    (hbound : max 1 ((2 + data.length + 16) / 17) ≤ 255) :
    (scene_lines marker data).length = max 1 ((2 + data.length + 16) / 17) ∧
    ((2 + data.length) % 17 = 0 →
      (scene_lines marker data).length = (2 + data.length) / 17) := by
  refine ⟨scene_lines_length marker data hbound, fun hmod => ?_⟩
  rw [scene_lines_length marker data hbound]
  omega

theorem scene_line_count_witness :
    max 1 ((2 + ([4, 39] : List Nat).length + 16) / 17) ≤ 255 ∧
    (scene_lines 0xa3 [4, 39]).length = max 1 ((2 + ([4, 39] : List Nat).length + 16) / 17) :=
  ⟨by decide, (scene_line_count 0xa3 [4, 39] (by decide)).1⟩

/-- C3 (counterexample): the source casts the line count `as u8`; for a
segmentation payload of 4350 bytes the full payload is 17 * 256 bytes long,
the count byte wraps to 0, and the encoder emits 0 segmentation lines where
the claim's formula demands `max(1, ceil(4352 / 17)) = 256`. -/
theorem scene_line_count_cex :
    ¬((scene_lines 0xa3 (List.replicate 4350 0)).length =
      max 1 ((2 + (List.replicate 4350 (0 : Nat)).length + 16) / 17)) := by
  have hnum : scene_num_lines_byte (List.replicate 4350 (0 : Nat)) = 0 := by
    rw [scene_num_lines_byte_eq]
    simp only [List.length_replicate]
    decide
  have hlines : (scene_lines 0xa3 (List.replicate 4350 0)).length = 0 := by
    rw [scene_lines, hnum]
    rfl
  rw [hlines]
  simp only [List.length_replicate]
  decide

lemma take_chunk (payload : List Nat) (cursor : Nat) :
    (payload.drop cursor).take (min (cursor + 17) payload.length - cursor) =
      (payload.drop cursor).take 17 := by
  rcases le_or_lt cursor payload.length with h | h
  · have hlen : (payload.drop cursor).length = payload.length - cursor := by simp
    rcases le_total (payload.length - cursor) 17 with h17 | h17
    · rw [List.take_of_length_le (by omega), List.take_of_length_le (by omega)]
    · rw [show min (cursor + 17) payload.length - cursor = 17 from by omega]
  · rw [List.drop_eq_nil_of_le (by omega)]
    simp

lemma drop_17_step (payload : List Nat) (cursor k : Nat) :
    (payload.drop (min (cursor + 17) payload.length + 17 * k)).take 17 =
      (payload.drop (cursor + 17 * (k + 1))).take 17 := by
  rcases le_or_lt (cursor + 17) payload.length with h | h
  · rw [min_eq_left h, show cursor + 17 * (k + 1) = cursor + 17 + 17 * k from by ring]
  · rw [min_eq_right (le_of_lt h)]
    rw [List.drop_eq_nil_of_le (by omega), List.drop_eq_nil_of_le (by omega)]

/-- Every line the segmentation loop emits is the continuation marker, then
the line index (`0xff` on the final iteration), then the next at-most-17-byte
chunk of the payload. -/
lemma seg_loop_getD (marker num_lines : Nat) (payload : List Nat) :
    ∀ (k r i cursor : Nat),
      k < (seg_loop marker num_lines payload i cursor r).length →
      (seg_loop marker num_lines payload i cursor r).getD k [] =
        marker ::
          (if num_lines = 1 then 0xff
           else if i + k = num_lines - 1 then 0xff else i + k) ::
          ((payload.drop (cursor + 17 * k)).take 17) := by
  intro k
  induction k with
  | zero =>
    intro r i cursor hk
    cases r with
    | zero => simp [seg_loop] at hk
    | succ r =>
      rw [seg_loop] at hk ⊢
      by_cases hbr : cursor ≥ payload.length ∧ i > 0
      · rw [if_pos hbr] at hk
        simp at hk
      · rw [if_neg hbr] at hk ⊢
        simp only [List.getD_cons_zero, Nat.mul_zero, Nat.add_zero, take_chunk]
  | succ k ih =>
    intro r i cursor hk
    cases r with
    | zero => simp [seg_loop] at hk
    | succ r =>
      rw [seg_loop] at hk ⊢
      by_cases hbr : cursor ≥ payload.length ∧ i > 0
      · rw [if_pos hbr] at hk
        simp at hk
      · rw [if_neg hbr] at hk ⊢
        simp only [List.length_cons] at hk
        have hk2 : k < (seg_loop marker num_lines payload (i + 1)
            (min (cursor + 17) payload.length) r).length := by omega
        simp only [List.getD_cons_succ]
        rw [ih r (i + 1) (min (cursor + 17) payload.length) hk2]
        rw [drop_17_step, show i + 1 + k = i + (k + 1) from by omega]

/-- C4: the k-th (0-based) segmentation line of a scene encoding is
`[continuation-marker, line-index]` followed by the next at-most-17-byte
chunk of the full payload; the line index is `k`, except `0xff` on the last
line (including the sole line when only one is produced). The marker byte is
the parsed `hex_multi_prefix` of the catalog entry. -/
theorem scene_segmentation_line_layout (params : ModelSpecificParameter)
    (marker : Nat) (data : List Nat) (k : Nat)
    (_hmk : parse_u8_radix16 params.hex_multi_prefix_str = some marker)
    (hk : k < (scene_lines marker data).length) :
    (scene_lines marker data).getD k [] =
      marker :: (if k = scene_num_lines_byte data - 1 then 0xff else k) ::
        ((scene_full_payload data).drop (17 * k)).take 17 := by
  have hlen : (scene_lines marker data).length ≤ scene_num_lines_byte data := by
    rw [scene_lines]
    exact seg_loop_len_le _ _ _ _ _ _
  rw [scene_lines] at hk ⊢
  rw [seg_loop_getD _ _ _ k _ 0 0 hk]
  simp only [Nat.zero_add]
  by_cases h1 : scene_num_lines_byte data = 1
  · have hk0 : k = 0 := by
      rw [scene_lines] at hlen
      omega
    subst hk0
    rw [if_pos h1, if_pos (by omega)]
  · rw [if_neg h1]

theorem scene_segmentation_line_layout_witness :
    (scene_lines 0xa3 [0x04, 0x27]).getD 0 [] =
      0xa3 :: (if 0 = scene_num_lines_byte [0x04, 0x27] - 1 then 0xff else 0) ::
        ((scene_full_payload [0x04, 0x27]).drop (17 * 0)).take 17 :=
  scene_segmentation_line_layout ⟨["H6065"], ['a', '3'], false, []⟩ 0xa3
    [0x04, 0x27] 0 (by decide) (by decide)

/-! ### Hex-string versus byte-slice comparison -/

lemma hexDigitVal_hexDigitChar : ∀ n, n < 16 → hexDigitVal (hexDigitChar n) = some n := by
  decide

lemma hexDigitChar_inj : ∀ x, x < 16 → ∀ y, y < 16 →
    hexDigitChar x = hexDigitChar y → x = y := by
  decide

lemma bytes_to_hex_cons (b : Nat) (l : List Nat) :
    bytes_to_hex_string (b :: l) =
      hexDigitChar (b / 16) :: hexDigitChar (b % 16) :: bytes_to_hex_string l := by
  simp [bytes_to_hex_string]

/-- On canonical (lowercase) hex encodings, the hex-string prefix test agrees
with the byte-level prefix test. -/
lemma hex_isPrefixOf (raw p : List Nat) (hraw : ∀ b ∈ raw, b < 256)
    (hp : ∀ b ∈ p, b < 256) :
    (bytes_to_hex_string p).isPrefixOf (bytes_to_hex_string raw) =
      p.isPrefixOf raw := by
  induction p generalizing raw with
  | nil => simp [bytes_to_hex_string, List.isPrefixOf]
  | cons b p2 ih =>
    cases raw with
    | nil => simp [bytes_to_hex_cons, bytes_to_hex_string, List.isPrefixOf]
    | cons c raw2 =>
      have hb : b < 256 := hp b (List.mem_cons_self b p2)
      have hc : c < 256 := hraw c (List.mem_cons_self c raw2)
      rw [bytes_to_hex_cons, bytes_to_hex_cons]
      simp only [List.isPrefixOf]
      by_cases hbc : b = c
      · subst hbc
        simp only [beq_self_eq_true, Bool.true_and]
        exact ih raw2 (fun x hx => hraw x (List.mem_cons_of_mem b hx))
          (fun x hx => hp x (List.mem_cons_of_mem b hx))
      · have hbcb : (b == c) = false := beq_eq_false_iff_ne.mpr hbc
        by_cases h1 : hexDigitChar (b / 16) = hexDigitChar (c / 16)
        · have hdiv : b / 16 = c / 16 :=
            hexDigitChar_inj _ (by omega) _ (by omega) h1
          by_cases h2 : hexDigitChar (b % 16) = hexDigitChar (c % 16)
          · have hmod : b % 16 = c % 16 :=
              hexDigitChar_inj _ (by omega) _ (by omega) h2
            exact absurd (by omega : b = c) hbc
          · have hb2 : (hexDigitChar (b % 16) == hexDigitChar (c % 16)) = false :=
              beq_eq_false_iff_ne.mpr h2
            simp [hb2, hbcb]
        · have hb1 : (hexDigitChar (b / 16) == hexDigitChar (c / 16)) = false :=
            beq_eq_false_iff_ne.mpr h1
          simp [hb1, hbcb]

lemma hexPairs_round (p : List Nat) (hp : ∀ b ∈ p, b < 256) :
    hexPairsToBytes (bytes_to_hex_string p) = some p := by
  induction p with
  | nil => rfl
  | cons b p2 ih =>
    have hb : b < 256 := hp b (List.mem_cons_self b p2)
    rw [bytes_to_hex_cons, hexPairsToBytes]
    rw [hexDigitVal_hexDigitChar _ (by omega), hexDigitVal_hexDigitChar _ (by omega),
      ih (fun x hx => hp x (List.mem_cons_of_mem b hx))]
    show some ((16 * (b / 16) + b % 16) :: p2) = some (b :: p2)
    rw [show 16 * (b / 16) + b % 16 = b from by omega]

lemma hex_round_trip (p : List Nat) (hp : ∀ b ∈ p, b < 256) :
    hex_string_to_bytes (bytes_to_hex_string p) = some p := by
  cases p with
  | nil => rfl
  | cons b p2 =>
    rw [hex_string_to_bytes, if_neg (by simp [bytes_to_hex_cons])]
    exact hexPairs_round _ hp

/-- C7 (amended): when the catalog's `hex_prefix_remove` field is the
canonical lowercase hex encoding of a byte sequence, the source's hex-string
prefix test selects exactly when the direct byte-slice prefix comparison
does. (The unrestricted claim fails: `hex::encode` emits lowercase, so an
uppercase catalog string defeats the string comparison while the byte
comparison still succeeds.) -/
theorem hex_check_eq_byte_check (raw p : List Nat)
    (hraw : ∀ b ∈ raw, b < 256) (hp : ∀ b ∈ p, b < 256) :
    hex_prefix_check raw (bytes_to_hex_string p) =
      byte_prefix_check raw (bytes_to_hex_string p) := by
  rw [hex_prefix_check, byte_prefix_check, hex_round_trip p hp,
    hex_isPrefixOf raw p hraw hp]

theorem hex_check_eq_byte_check_witness :
    hex_prefix_check [0x12, 0x89] (bytes_to_hex_string [0x12]) =
      byte_prefix_check [0x12, 0x89] (bytes_to_hex_string [0x12]) :=
  hex_check_eq_byte_check [0x12, 0x89] [0x12] (by decide) (by decide)

/-- C7 (counterexample): on raw bytes `[0xab]` and catalog hex string `"AB"`,
the hex-string prefix test rejects (hex encoding is lowercase `"ab"`) while
the byte-slice comparison accepts (`hex::decode "AB" = [0xab]`): the two
comparisons are not behaviorally equivalent for every catalog Type Entry. -/
theorem hex_check_vs_byte_check_cex :
    ¬(hex_prefix_check [0xab] ['A', 'B'] = byte_prefix_check [0xab] ['A', 'B']) := by
  decide

/-! ### Power-on prefixing -/

lemma finish_power_on :
    finish [0x33, 0x01, 0x01] = 0x33 :: 0x01 :: 0x01 :: List.replicate 16 0 ++ [0x33] := by
  decide

lemma mode_cmd_shape {te : TypeEntry} {code : Nat} {m : List Nat}
    (h : scene_mode_cmd_payload te code = some m) :
    ∃ t, m = 0x33 :: 0x05 :: t := by
  unfold scene_mode_cmd_payload at h
  by_cases hs : (te.normal_command_suffix).isEmpty
  · rw [if_pos hs, Option.some.injEq] at h
    exact ⟨_, h.symm⟩
  · rw [if_neg hs] at h
    simp only [bind, Option.bind_eq_some] at h
    obtain ⟨sb, _, h⟩ := h
    simp only [Option.pure_def, Option.some.injEq] at h
    exact ⟨_, h.symm⟩

lemma scene_lines_head {marker : Nat} {data : List Nat} {l0 : List Nat}
    {rest : List (List Nat)} (h : scene_lines marker data = l0 :: rest) :
    ∃ idx chunk, l0 = marker :: idx :: chunk ∧ (idx = 0 ∨ idx = 0xff) := by
  rw [scene_lines] at h
  cases hn : scene_num_lines_byte data with
  | zero =>
    rw [hn] at h
    simp [seg_loop] at h
  | succ n =>
    rw [hn] at h
    rw [seg_loop, if_neg (by omega)] at h
    injection h with h0 _
    refine ⟨_, _, h0.symm, ?_⟩
    rcases Nat.eq_zero_or_pos n with rfl | hpos
    · right
      simp
    · left
      rw [if_neg (by omega), if_neg (by omega)]

lemma scene_command_lines_shape {params : ModelSpecificParameter}
    {raw : List Nat} {code : Nat} {lines : List (List Nat)}
    (h : scene_command_lines params raw code = some lines) :
    ∃ x y t rest, lines = (x :: y :: t) :: rest ∧
      (y = 0 ∨ y = 0xff ∨ y = 0x05) := by
  unfold scene_command_lines at h
  simp only [bind, Option.bind_eq_some] at h
  obtain ⟨data, _, h⟩ := h
  obtain ⟨marker, _, h⟩ := h
  obtain ⟨mode_cmd, hmode, h⟩ := h
  simp only [Option.pure_def, Option.some.injEq] at h
  cases hsl : scene_lines marker data with
  | nil =>
    obtain ⟨t, ht⟩ := mode_cmd_shape hmode
    refine ⟨0x33, 0x05, t, [], ?_, Or.inr (Or.inr rfl)⟩
    rw [← h, hsl, ht]
    rfl
  | cons l0 ls =>
    obtain ⟨idx, chunk, hl0, hidx⟩ := scene_lines_head hsl
    refine ⟨marker, idx, chunk, ls ++ [mode_cmd], ?_, ?_⟩
    · rw [← h, hsl, hl0]
      rfl
    · rcases hidx with rfl | rfl
      · exact Or.inl rfl
      · exact Or.inr (Or.inl rfl)

lemma finish_cons2 (x y : Nat) (t : List Nat) :
    ∃ q, finish (x :: y :: t) = x :: y :: q := by
  have h19 : List.take 19 (x :: y :: t) = x :: y :: List.take 17 t := by
    rw [show (19 : Nat) = 17 + 1 + 1 from rfl]
    simp [List.take_succ_cons]
  rw [finish, resize19, h19]
  simp only [List.cons_append]
  exact ⟨_, rfl⟩

/-- C8: when the resolved catalog entry's power-on flag is set, the scene
encoder's output begins with the framed power-on line
`33 01 01` + sixteen zero bytes + checksum `33`, prepended before all
segmentation and mode-selection lines; when the flag is unset, the output
does not begin with that frame. -/
theorem scene_power_on_frame (catalog : List ModelSpecificParameter)
    (self : SetSceneCode) (params : ModelSpecificParameter)
    (hfind : find_params_for_sku catalog self.sku = some params) :
    (∀ lines, scene_command_lines params self.scence_param self.code = some lines →
      params.on_command = true →
      SetSceneCode.encode catalog self =
        some ((0x33 :: 0x01 :: 0x01 :: List.replicate 16 0 ++ [0x33]) ++
          (lines.map finish).flatten)) ∧
    (∀ out, SetSceneCode.encode catalog self = some out →
      params.on_command = false →
      out.take 20 ≠ 0x33 :: 0x01 :: 0x01 :: List.replicate 16 0 ++ [0x33]) := by
  constructor
  · intro lines hlines hon
    simp only [SetSceneCode.encode, hfind, hlines, hon, if_true]
    rw [finish_power_on]
  · intro out hout hoff
    simp only [SetSceneCode.encode, hfind] at hout
    cases hcl : scene_command_lines params self.scence_param self.code with
    | none =>
      rw [hcl] at hout
      simp at hout
    | some lines =>
      rw [hcl] at hout
      simp only [hoff, Bool.false_eq_true, if_false, Option.some.injEq] at hout
      obtain ⟨x, y, t, rest, hsplit, hy⟩ := scene_command_lines_shape hcl
      intro heq
      subst hout
      rw [hsplit, List.map_cons, List.flatten_cons] at heq
      rw [List.take_left' (finish_length (x :: y :: t))] at heq
      obtain ⟨q, hq⟩ := finish_cons2 x y t
      rw [hq] at heq
      injection heq with h1 heq2
      injection heq2 with h2 heq3
      omega

theorem scene_power_on_frame_witness :
    SetSceneCode.encode
        [⟨["HX"], ['a', '3'], true, []⟩] ⟨0, [], "HX"⟩ =
      some ((0x33 :: 0x01 :: 0x01 :: List.replicate 16 0 ++ [0x33]) ++
        (([[0xa3, 0xff, 0x01, 0x01], [0x33, 0x05, 0x04, 0, 0]] : List (List Nat)).map
          finish).flatten) :=
  (scene_power_on_frame [⟨["HX"], ['a', '3'], true, []⟩] ⟨0, [], "HX"⟩
    ⟨["HX"], ['a', '3'], true, []⟩ (by decide)).1
    [[0xa3, 0xff, 0x01, 0x01], [0x33, 0x05, 0x04, 0, 0]] (by decide) rfl
